import Mathlib

/-
  Verification development for the sporttery client-side task-orchestration and
  state-synchronization engine (SportteryManager / SportteryState /
  SportteryDataService / SportteryUtils).

  The JavaScript source is embedded shallowly: JS objects used as string-keyed
  maps become association lists, network round trips become explicit response
  values passed in as inputs, and timer handles become tracked natural-number
  identifiers together with a list of cancelled identifiers.  The JS property
  name `matches` is rendered as `matchesL` because `matches` is a reserved
  word in Lean.
-/

/-- A fixture/result record, with the fields the orchestration logic reads. -/
structure MatchRec where
  match_code : String
  group_date : Option String
  is_completed : Bool
  scores : Option (List String)
  source_type : Option String
  prediction_type : Option String
deriving DecidableEq, Repr

/-- The two per-match job kinds recorded in `_processingStates`. -/
inductive JobKind where
  | quick
  | deep
deriving DecidableEq, Repr

/- ### Association-list model of JS string-keyed objects -/

/-- Lookup of a key in a string-keyed object (first matching entry). -/
def lookupA {β : Type} : List (String × β) → String → Option β
  | [], _ => none
  | (k2, v) :: rest, k => if k2 = k then some v else lookupA rest k

/-- JS property assignment: replace the entry in place if the key exists,
append it at the end otherwise. -/
def setA {β : Type} : List (String × β) → String → β → List (String × β)
  | [], k, v => [(k, v)]
  | (k2, v2) :: rest, k, v =>
    if k2 = k then (k, v) :: rest else (k2, v2) :: setA rest k v

/-- JS `delete obj[k]`: remove the entries with key `k`. -/
def eraseA {β : Type} : List (String × β) → String → List (String × β)
  | [], _ => []
  | (k2, v) :: rest, k => if k2 = k then eraseA rest k else (k2, v) :: eraseA rest k

/-- Number of entries carrying a given key. -/
def countKey {β : Type} : List (String × β) → String → Nat
  | [], _ => 0
  | (k2, _) :: rest, k => (if k2 = k then 1 else 0) + countKey rest k

theorem lookupA_setA_self {β : Type} (l : List (String × β)) (k : String) (v : β) :
    lookupA (setA l k v) k = some v := by
  induction l with
  | nil => simp [setA, lookupA]
  | cons p rest ih =>
    obtain ⟨k2, v2⟩ := p
    by_cases h : k2 = k
    · simp [setA, h, lookupA]
    · simp [setA, h, lookupA, ih]

theorem lookupA_setA_ne {β : Type} (l : List (String × β)) (k k2 : String) (v : β)
    (h : k2 ≠ k) : lookupA (setA l k v) k2 = lookupA l k2 := by
  have hne : k ≠ k2 := Ne.symm h
  induction l with
  | nil => simp [setA, lookupA, hne]
  | cons p rest ih =>
    obtain ⟨k3, v3⟩ := p
    by_cases h3 : k3 = k
    · subst h3
      simp [setA, lookupA, hne, h]
    · simp [setA, h3, lookupA, ih]

theorem lookupA_eraseA_self {β : Type} (l : List (String × β)) (k : String) :
    lookupA (eraseA l k) k = none := by
  induction l with
  | nil => simp [eraseA, lookupA]
  | cons p rest ih =>
    obtain ⟨k2, v2⟩ := p
    by_cases h : k2 = k
    · simpa [eraseA, h] using ih
    · simp [eraseA, h, lookupA, ih]

theorem lookupA_eraseA_ne {β : Type} (l : List (String × β)) (k k2 : String)
    (h : k2 ≠ k) : lookupA (eraseA l k) k2 = lookupA l k2 := by
  induction l with
  | nil => simp [eraseA, lookupA]
  | cons p rest ih =>
    obtain ⟨k3, v3⟩ := p
    by_cases h3 : k3 = k
    · subst h3
      simp [eraseA, lookupA, Ne.symm h, ih]
    · simp [eraseA, h3, lookupA, ih]

theorem lookupA_mem {β : Type} (l : List (String × β)) (k : String) (v : β)
    (h : lookupA l k = some v) : k ∈ l.map Prod.fst := by
  induction l with
  | nil => simp [lookupA] at h
  | cons p rest ih =>
    obtain ⟨k2, v2⟩ := p
    by_cases h2 : k2 = k
    · simp [h2]
    · simp only [lookupA, if_neg h2] at h
      simpa using Or.inr (ih h)

theorem countKey_eraseA {β : Type} (l : List (String × β)) (k : String) :
    countKey (eraseA l k) k = 0 := by
  induction l with
  | nil => simp [countKey, eraseA]
  | cons p rest ih =>
    obtain ⟨k2, v2⟩ := p
    by_cases h : k2 = k
    · simpa [eraseA, h] using ih
    · simp [eraseA, h, countKey, ih]

theorem setA_of_countKey_zero {β : Type} (l : List (String × β)) (k : String) (v : β)
    (h : countKey l k = 0) : setA l k v = l ++ [(k, v)] := by
  induction l with
  | nil => simp [setA]
  | cons p rest ih =>
    obtain ⟨k2, v2⟩ := p
    by_cases h2 : k2 = k
    · simp [countKey, h2] at h
    · simp only [countKey, if_neg h2, Nat.zero_add] at h
      simp [setA, h2, ih h]

theorem countKey_append {β : Type} (l1 l2 : List (String × β)) (k : String) :
    countKey (l1 ++ l2) k = countKey l1 k + countKey l2 k := by
  induction l1 with
  | nil => simp [countKey]
  | cons p rest ih =>
    obtain ⟨k2, v2⟩ := p
    simp [countKey, ih, Nat.add_assoc]

/- ### SportteryUtils -/

/-- JS `String.prototype.slice(a, b)` for `0 ≤ a ≤ b` (the source only slices
in-range). -/
def jsSlice (s : String) (a b : Nat) : String :=
  (s.drop a).take (b - a)

/-- Whether JS `s.trim()` is non-empty: some character is not whitespace.
(`String.trim` itself is not kernel-reducible, so the emptiness test of the
trimmed string is rendered by this equivalent executable predicate.) -/
def trimNonEmpty (s : String) : Bool :=
  s.toList.any (fun c => !c.isWhitespace)

/-- `SportteryUtils.extractDateKey`: takes `group_date`, requires it present,
non-blank after trimming and at least 10 characters long, and returns the
`MM-DD` slice; otherwise null. -/
def extractDateKey (data : MatchRec) : Option String :=
  match data.group_date with
  | none => none
  | some groupDate =>
    if groupDate ≠ "" ∧ trimNonEmpty groupDate then
      if groupDate.length ≥ 10 then
        some (jsSlice groupDate 5 7 ++ "-" ++ jsSlice groupDate 8 10)
      else none
    else none

/-- `SportteryUtils.extractMatchDateKey`: same body as `extractDateKey`
(the source duplicates the logic for the fixture partition). -/
def extractMatchDateKey (data : MatchRec) : Option String :=
  match data.group_date with
  | none => none
  | some groupDate =>
    if groupDate ≠ "" ∧ trimNonEmpty groupDate then
      if groupDate.length ≥ 10 then
        some (jsSlice groupDate 5 7 ++ "-" ++ jsSlice groupDate 8 10)
      else none
    else none

/-- Modelled from the spec: the spec calls a grouping-date value valid when it
is "a parseable date string"; the source comments document the expected format
`YYYY-MM-DD`.  This predicate holds exactly for 10-character strings of that
shape (four digits, dash, two digits, dash, two digits). -/
def isSpecParseableGroupDate (s : String) : Bool :=
  match s.toList with
  | [y1, y2, y3, y4, s1, m1, m2, s2, d1, d2] =>
    y1.isDigit && y2.isDigit && y3.isDigit && y4.isDigit &&
    s1 == '-' && m1.isDigit && m2.isDigit && s2 == '-' && d1.isDigit && d2.isDigit
  | _ => false

/- ### SportteryState (the State Store) -/

/-- One step of the date-grouping fold: `dateGroups[key].push(record)` with
on-demand creation of the group array, skipping records without a key. -/
def addToGroups (key : MatchRec → Option String) (gs : List (String × List MatchRec))
    (r : MatchRec) : List (String × List MatchRec) :=
  match key r with
  | some k => setA gs k ((lookupA gs k).getD [] ++ [r])
  | none => gs

/-- `SportteryState._updateResultsDateGroups`: full recompute of the
completed-result grouping from the result partition only. -/
def updateResultsDateGroups (results : List MatchRec) : List (String × List MatchRec) :=
  if results.isEmpty then []
  else results.foldl (addToGroups extractDateKey) []

/-- `SportteryState._updateMatchDateGroups`: full recompute of the
pending-fixture grouping from the fixture partition only. -/
def updateMatchDateGroups (ms : List MatchRec) : List (String × List MatchRec) :=
  ms.foldl (addToGroups extractMatchDateKey) []

/-- The state object of the State Store (`matchesL` renders the JS field `matches`). -/
structure StoreState where
  matchesL : List MatchRec
  results : List MatchRec
  dateGroups : List (String × List MatchRec)
  matchDateGroups : List (String × List MatchRec)
  currentView : String
  loading : Bool
  selectedDate : Option String
deriving DecidableEq, Repr

/-- A partial update passed to `setState` (absent fields are not merged). -/
structure StateUpdates where
  matchesU : Option (List MatchRec)
  resultsU : Option (List MatchRec)
  currentViewU : Option String
  selectedDateU : Option (Option String)
deriving DecidableEq, Repr

/-- `SportteryState.setState`: shallow merge, then recompute the result
grouping when the update carries `results` and the fixture grouping when it
carries `matches`. -/
def setState (st : StoreState) (u : StateUpdates) : StoreState :=
  let merged : StoreState :=
    { st with
      matchesL := u.matchesU.getD st.matchesL
      results := u.resultsU.getD st.results
      currentView := u.currentViewU.getD st.currentView
      selectedDate := u.selectedDateU.getD st.selectedDate }
  let s1 :=
    if u.resultsU.isSome then
      { merged with dateGroups := updateResultsDateGroups merged.results }
    else merged
  if u.matchesU.isSome then
    { s1 with matchDateGroups := updateMatchDateGroups s1.matchesL }
  else s1

theorem groups_fold_mem_key (key : MatchRec → Option String) :
    ∀ (records : List MatchRec) (init : List (String × List MatchRec)),
      (∀ k grp x, lookupA init k = some grp → x ∈ grp → key x = some k) →
      ∀ k grp x, lookupA (records.foldl (addToGroups key) init) k = some grp →
        x ∈ grp → key x = some k := by
  intro records
  induction records with
  | nil => intro init hinit; simpa using hinit
  | cons r rest ih =>
    intro init hinit
    simp only [List.foldl_cons]
    refine ih (addToGroups key init r) ?_
    intro k grp x hlook hx
    cases hkey : key r with
    | none =>
      simp only [addToGroups, hkey] at hlook
      exact hinit k grp x hlook hx
    | some k0 =>
      simp only [addToGroups, hkey] at hlook
      by_cases hk : k = k0
      · subst hk
        rw [lookupA_setA_self] at hlook
        cases hlook
        rcases List.mem_append.mp hx with hmem | hmem
        · cases hold : lookupA init k with
          | none => simp [hold] at hmem
          | some old => exact hinit k old x hold (by simpa [hold] using hmem)
        · simp at hmem
          subst hmem
          exact hkey
      · rw [lookupA_setA_ne _ _ _ _ hk] at hlook
        exact hinit k grp x hlook hx

theorem updateResultsDateGroups_mem_key (results : List MatchRec) (k : String)
    (grp : List MatchRec) (x : MatchRec)
    (h : lookupA (updateResultsDateGroups results) k = some grp) (hx : x ∈ grp) :
    extractDateKey x = some k := by
  unfold updateResultsDateGroups at h
  by_cases he : results.isEmpty
  · simp [he, lookupA] at h
  · rw [if_neg he] at h
    exact groups_fold_mem_key extractDateKey results [] (by simp [lookupA]) k grp x h hx

theorem updateMatchDateGroups_mem_key (ms : List MatchRec) (k : String)
    (grp : List MatchRec) (x : MatchRec)
    (h : lookupA (updateMatchDateGroups ms) k = some grp) (hx : x ∈ grp) :
    extractMatchDateKey x = some k := by
  unfold updateMatchDateGroups at h
  exact groups_fold_mem_key extractMatchDateKey ms [] (by simp [lookupA]) k grp x h hx

/- ### SportteryDataService (the Data Access Client) -/

/-- A parsed JSON payload as the data service reads it: every field it touches,
each possibly missing. -/
structure RawPayload where
  status : Option String
  data : Option (List MatchRec)
  count : Option Nat
  schedule_count : Option Nat
  completed_count : Option Nat
  message : Option String
deriving DecidableEq, Repr

/-- The observable outcome of one `fetch` round trip: whether the request
itself threw, the HTTP `ok` flag, and the parsed body (`none` when
`response.json()` threw). -/
structure NetResponse where
  fetchThrew : Bool
  ok : Bool
  payload : Option RawPayload
deriving DecidableEq, Repr

/-- The normalized result object the fetch methods build. -/
structure DSResult where
  status : String
  data : List MatchRec
  count : Nat
  schedule_count : Nat
  completed_count : Nat
  message : Option String
deriving DecidableEq, Repr

/-- JS `a || b` on an optional string: the fallback fires on null/undefined and
on the empty string. -/
def jsOr (o : Option String) (d : String) : String :=
  match o with
  | some s => if s = "" then d else s
  | none => d

/-- `SportteryDataService.fetchAllMatches` as a function of the network
response (the `forceRefresh` pre-scrape does not affect the returned shape). -/
def fetchAllMatches (resp : NetResponse) : DSResult :=
  if resp.fetchThrew then
    ⟨"error", [], 0, 0, 0, some "未知错误"⟩
  else if !resp.ok then
    ⟨"error", [], 0, 0, 0, some "获取合并数据失败"⟩
  else
    match resp.payload with
    | none => ⟨"error", [], 0, 0, 0, some "未知错误"⟩
    | some result =>
      if result.status = some "success" then
        ⟨"success", result.data.getD [], result.count.getD 0,
          result.schedule_count.getD 0, result.completed_count.getD 0, none⟩
      else
        ⟨"error", [], 0, 0, 0, some (jsOr result.message "获取数据失败")⟩

/-- `SportteryDataService.fetchResults` as a function of the network response. -/
def fetchResults (resp : NetResponse) : DSResult :=
  if resp.fetchThrew then
    ⟨"error", [], 0, 0, 0, some "未知错误"⟩
  else if !resp.ok then
    ⟨"error", [], 0, 0, 0, some "获取赛果数据失败"⟩
  else
    match resp.payload with
    | none => ⟨"error", [], 0, 0, 0, some "未知错误"⟩
    | some result =>
      if result.status = some "success" then
        ⟨"success", result.data.getD [], result.count.getD 0, 0, 0, none⟩
      else
        ⟨"error", [], 0, 0, 0, some (jsOr result.message "未知错误")⟩

/-- `SportteryDataService.triggerResultScraping`: failures are normalized to an
error object, but an HTTP-ok parseable response is returned verbatim. -/
def triggerResultScraping (resp : NetResponse) : RawPayload :=
  if resp.fetchThrew then
    ⟨some "error", none, none, none, none, some "未知错误"⟩
  else if !resp.ok then
    ⟨some "error", none, none, none, none, some "触发赛果抓取失败"⟩
  else
    match resp.payload with
    | none => ⟨some "error", none, none, none, none, some "未知错误"⟩
    | some result => result

/- ### SportteryManager (the Task Orchestrator) -/

/-- The mutable orchestrator fields, as the claims need them.  Timer handles
are modelled by consecutive identifiers drawn from `nextTimerId`;
`clearTimeout` pushes the handle onto `cancelledTimers`. -/
structure MgrState where
  processingStates : List (String × JobKind)
  quickPredictionTimers : List (String × Nat)
  nextTimerId : Nat
  cancelledTimers : List Nat
  quickPollingActive : Bool
  quickPollingTimer : Option Nat
  deepPollingActive : Bool
  deepPollingTimer : Option Nat
  currentTaskId : Option String
  interruptVisible : Bool
  quickButtonIdle : Bool
  deepButtonIdle : Bool
  statusMessage : String
  statusKind : String
deriving DecidableEq, Repr

/-- A starting orchestrator state used by concrete instantiations. -/
def mgr0 : MgrState :=
  ⟨[], [], 0, [], false, none, false, none, none, false, true, true, "", "info"⟩

/-- `SportteryManager._clearQuickPredictionTimer`. -/
def clearQuickPredictionTimer (s : MgrState) (code : String) : MgrState :=
  match lookupA s.quickPredictionTimers code with
  | some t =>
    { s with
      cancelledTimers := t :: s.cancelledTimers
      quickPredictionTimers := eraseA s.quickPredictionTimers code }
  | none => s

/-- `SportteryManager._setMatchProcessing` (the renderer notification is pure
UI and is not modelled). -/
def setMatchProcessing (s : MgrState) (code : String) (ty : Option JobKind) : MgrState :=
  match ty with
  | none =>
    clearQuickPredictionTimer
      { s with processingStates := eraseA s.processingStates code } code
  | some k => { s with processingStates := setA s.processingStates code k }

/-- `SportteryManager.getMatchData`: first record with the code among
`state.matches ++ state.results`. -/
def getMatchData (ms results : List MatchRec) (code : String) : Option MatchRec :=
  (ms ++ results).find? (fun m => m.match_code == code)

/-- `SportteryManager._hasProcessingResult`: the confirmation predicate —
predicted scores present for `quick`, a deep tag for `deep`. -/
def hasProcessingResult (ms results : List MatchRec) (code : String) (ty : JobKind) : Bool :=
  match getMatchData ms results code with
  | none => false
  | some m =>
    match ty with
    | JobKind.quick =>
      match m.scores with
      | some l => !l.isEmpty
      | none => false
    | JobKind.deep =>
      m.source_type == some "deep" || m.prediction_type == some "deep"

/-- The attempt bound of `_scheduleProcessingRefresh`:
`maxAttempts` when it is a number, else 18 for deep and 5 for quick. -/
def refreshAttemptsLimit (kind : JobKind) (maxAttempts : Option Nat) : Nat :=
  maxAttempts.getD (match kind with | JobKind.deep => 18 | JobKind.quick => 5)

/-- The tick interval of `_scheduleProcessingRefresh`:
`intervalMs` when it is a number, else 10000 for deep and 5000 for quick. -/
def refreshIntervalMs (kind : JobKind) (intervalMs : Option Nat) : Nat :=
  intervalMs.getD (match kind with | JobKind.deep => 10000 | JobKind.quick => 5000)

/-- The synchronous tail of `_scheduleProcessingRefresh`: cancel any existing
timer for the code, then register a fresh one. -/
def scheduleProcessingRefreshSetup (s : MgrState) (code : String) : MgrState :=
  let s1 := clearQuickPredictionTimer s code
  { s1 with
    quickPredictionTimers := setA s1.quickPredictionTimers code s1.nextTimerId
    nextTimerId := s1.nextTimerId + 1 }

/-- The `loop` closure of `_scheduleProcessingRefresh`, driven by the
environment: `found a` tells whether `_hasProcessingResult` holds after the
`a`-th refresh.  Returns the final state and the number of attempts made.
`fuel` bounds the recursion; the runner supplies `fuel = limit`, which the
loop can never exhaust early. -/
def processingRefreshLoopGo (code : String) (limit : Nat) (found : Nat → Bool) :
    Nat → Nat → MgrState → MgrState × Nat
  | 0, attempts, s => (s, attempts)
  | fuel + 1, attempts, s =>
    let a := attempts + 1
    if found a then
      (setMatchProcessing s code none, a)
    else if limit ≤ a then
      (setMatchProcessing s code none, a)
    else
      let s1 :=
        { s with
          quickPredictionTimers := setA s.quickPredictionTimers code s.nextTimerId
          nextTimerId := s.nextTimerId + 1 }
      processingRefreshLoopGo code limit found fuel a s1

/-- `_scheduleProcessingRefresh` together with every tick it schedules, as
driven by the environment `found`. -/
def runProcessingRefresh (s : MgrState) (code : String) (kind : JobKind)
    (maxAttempts intervalMs : Option Nat) (found : Nat → Bool) : MgrState × Nat :=
  let limit := refreshAttemptsLimit kind maxAttempts
  let _interval := refreshIntervalMs kind intervalMs
  let s0 := scheduleProcessingRefreshSetup s code
  processingRefreshLoopGo code limit found limit 0 s0

/-- The `data` object of the `prediction-status` endpoint. -/
structure PredictionStatusData where
  is_within_window : Bool
  has_deep_analysis : Bool
  can_quick_predict : Bool
  can_deep_analysis : Bool
  quick_current : Nat
  quick_max : Nat
  deep_current : Nat
  deep_max : Nat
deriving DecidableEq, Repr

/-- Outcome of the `prediction-status` round trip: `threw` covers a fetch or
parse exception; otherwise the parsed `status`/`message`/`data` fields. -/
structure PredictionStatusResp where
  threw : Bool
  status : String
  message : Option String
  data : PredictionStatusData
deriving DecidableEq, Repr

/-- Outcome of the job-start round trip (`quick-predict` / `deep-analysis`). -/
structure LaunchResp where
  threw : Bool
  status : String
  message : Option String
deriving DecidableEq, Repr

/-- What a single-match launch did: the resulting orchestrator state, whether
the job-start request was issued, whether `refreshMatchesData` was invoked
immediately (before any predicate check), whether the self-healing loop was
scheduled and with which explicit arguments, and whether a one-shot delayed
refresh was scheduled. -/
structure LaunchOutcome where
  state : MgrState
  launchRequested : Bool
  immediateRefresh : Bool
  scheduledLoop : Bool
  loopMaxAttempts : Option Nat
  loopIntervalMs : Option Nat
  delayedRefreshMs : Option Nat
deriving DecidableEq, Repr

/-- `SportteryManager.quickPredictSingleMatch` as a function of the remote
responses; `resultAfterRefresh` is the value the quick confirmation predicate
`_hasProcessingResult` takes against the dataset loaded by the immediate
refresh. -/
def quickPredictSingleMatch (s : MgrState) (code : String)
    (statusResp : PredictionStatusResp) (launch : LaunchResp)
    (resultAfterRefresh : Bool) : LaunchOutcome :=
  if statusResp.threw then
    ⟨setMatchProcessing (clearQuickPredictionTimer s code) code none,
      false, false, false, none, none, none⟩
  else if statusResp.status ≠ "success" then
    ⟨s, false, false, false, none, none, none⟩
  else if !statusResp.data.is_within_window then
    ⟨s, false, false, false, none, none, none⟩
  else if statusResp.data.has_deep_analysis then
    ⟨s, false, false, false, none, none, none⟩
  else if !statusResp.data.can_quick_predict then
    ⟨s, false, false, false, none, none, none⟩
  else
    let s1 := setMatchProcessing s code (some JobKind.quick)
    if launch.threw then
      ⟨setMatchProcessing (clearQuickPredictionTimer s1 code) code none,
        true, false, false, none, none, none⟩
    else if launch.status = "success" then
      if !resultAfterRefresh then
        ⟨scheduleProcessingRefreshSetup s1 code, true, true, true, none, none, none⟩
      else
        ⟨setMatchProcessing s1 code none, true, true, false, none, none, none⟩
    else
      ⟨setMatchProcessing (clearQuickPredictionTimer s1 code) code none,
        true, false, false, none, none, none⟩

/-- `SportteryManager.deepAnalysisSingleMatch` as a function of the remote
responses.  On launch success it schedules a one-shot 5000 ms refresh and
always enters the self-healing loop with explicit arguments `(24, 10000)`;
there is no immediate refresh and no fast-path clear. -/
def deepAnalysisSingleMatch (s : MgrState) (code : String)
    (statusResp : PredictionStatusResp) (launch : LaunchResp) : LaunchOutcome :=
  if statusResp.threw then
    ⟨setMatchProcessing s code none, false, false, false, none, none, none⟩
  else if statusResp.status ≠ "success" then
    ⟨s, false, false, false, none, none, none⟩
  else if !statusResp.data.is_within_window then
    ⟨s, false, false, false, none, none, none⟩
  else if statusResp.data.has_deep_analysis then
    ⟨s, false, false, false, none, none, none⟩
  else if !statusResp.data.can_deep_analysis then
    ⟨s, false, false, false, none, none, none⟩
  else
    let s1 := setMatchProcessing s code (some JobKind.deep)
    if launch.threw then
      ⟨setMatchProcessing s1 code none, true, false, false, none, none, none⟩
    else if launch.status = "success" then
      ⟨scheduleProcessingRefreshSetup s1 code, true, false, true,
        some 24, some 10000, some 5000⟩
    else
      ⟨setMatchProcessing s1 code none, true, false, false, none, none, none⟩

/- ### Batch polling -/

/-- A task-status object from the batch status endpoint. -/
structure TaskData where
  status : String
  total_matches : Option Nat
  match_count : Option Nat
  completed_matches : Option Nat
  success_count : Option Nat
  failed_count : Option Nat
  current_step : Option String
  current_match : Option String
  error : Option String
deriving DecidableEq, Repr

/-- The parsed body of the batch status endpoint. -/
structure PollPayload where
  status : String
  data : Option TaskData
deriving DecidableEq, Repr

/-- One observed poll round trip: the fetch threw, or an HTTP status code with
an optionally parseable body. -/
inductive PollFetch where
  | threw
  | http (statusCode : Nat) (payload : Option PollPayload)
deriving DecidableEq, Repr

/-- `SportteryManager._describeTaskStep` (empty strings are falsy in JS). -/
def describeTaskStep (step : Option String) (currentMatch : Option String) : String :=
  match step with
  | none => ""
  | some st =>
    if st = "" then ""
    else
      let m := currentMatch.getD ""
      let matchLabel := if m = "" then "" else s!"：{m}"
      if st = "select" then s!"选择比赛{matchLabel}"
      else if st = "collect" then s!"搜集资料{matchLabel}"
      else if st = "generate" then s!"生成文章{matchLabel}"
      else if st = "quick_predict" then s!"快速预测{matchLabel}"
      else s!"{st}{matchLabel}"

/-- The progress readout `_handleQuickPredictionStatus` renders for a
pending/running task. -/
def quickProgressMessage (t : TaskData) : String :=
  let total := t.total_matches.getD (t.match_count.getD 0)
  let completed := t.completed_matches.getD (t.success_count.getD 0)
  let stepDesc := describeTaskStep t.current_step t.current_match
  let progressText := if total ≠ 0 then s!"（{completed}/{total}）" else ""
  let stepText := if stepDesc ≠ "" then s!" - {stepDesc}" else ""
  s!"快速预测进行中{progressText}{stepText}"

/-- `SportteryManager._stopQuickPredictionPolling`. -/
def stopQuickPredictionPolling (s : MgrState) : MgrState :=
  let s1 := { s with quickPollingActive := false }
  match s1.quickPollingTimer with
  | some t =>
    { s1 with cancelledTimers := t :: s1.cancelledTimers, quickPollingTimer := none }
  | none => s1

/-- `SportteryManager._stopDeepAnalysisPolling`. -/
def stopDeepAnalysisPolling (s : MgrState) : MgrState :=
  let s1 := { s with deepPollingActive := false }
  match s1.deepPollingTimer with
  | some t =>
    { s1 with cancelledTimers := t :: s1.cancelledTimers, deepPollingTimer := none }
  | none => s1

/-- `SportteryManager._handleQuickPredictionNotFound`. -/
def handleQuickPredictionNotFound (s : MgrState) : MgrState :=
  let s1 := stopQuickPredictionPolling s
  { s1 with
    interruptVisible := false
    currentTaskId := none
    quickButtonIdle := true
    statusMessage := "快速预测任务不存在或已结束"
    statusKind := "warning" }

/-- `SportteryManager._handleQuickPredictionStatus`; the returned flag records
whether `refreshMatchesData` was triggered (the `completed` branch). -/
def handleQuickPredictionStatus (s : MgrState) (task : Option TaskData) :
    MgrState × Bool :=
  match task with
  | none => (s, false)
  | some t =>
    if t.status = "pending" ∨ t.status = "running" then
      ({ s with statusMessage := quickProgressMessage t, statusKind := "info" }, false)
    else
      let s1 := stopQuickPredictionPolling s
      let s2 :=
        { s1 with interruptVisible := false, currentTaskId := none, quickButtonIdle := true }
      if t.status = "completed" then
        let total := t.total_matches.getD (t.match_count.getD 0)
        let completed := t.completed_matches.getD (t.success_count.getD 0)
        let successCount := t.success_count.getD completed
        let successText :=
          if total ≠ 0 then s!"{successCount}/{total}" else s!"{successCount}"
        ({ s2 with statusMessage := s!"快速预测完成，成功预测 {successText} 场",
                   statusKind := "success" }, true)
      else if t.status = "failed" then
        ({ s2 with statusMessage := "快速预测失败", statusKind := "danger" }, false)
      else if t.status = "interrupted" then
        ({ s2 with statusMessage := "快速预测已中断", statusKind := "warning" }, false)
      else
        let st := t.status
        ({ s2 with statusMessage := s!"快速预测状态：{st}", statusKind := "info" }, false)

/-- What one invocation of the quick-prediction `poll` closure did. -/
structure PollStepResult where
  state : MgrState
  issuedRequest : Bool
  nextPollDelayMs : Option Nat
  refreshedData : Bool
deriving DecidableEq, Repr

/-- One iteration of the `poll` closure inside
`_startQuickPredictionPolling`: classify the response, then reschedule after
3000 ms iff polling is still active. -/
def quickPollStep (s : MgrState) (resp : PollFetch) : PollStepResult :=
  if !s.quickPollingActive then ⟨s, false, none, false⟩
  else
    match resp with
    | PollFetch.threw =>
      ⟨{ s with quickPollingTimer := some s.nextTimerId, nextTimerId := s.nextTimerId + 1 },
        true, some 3000, false⟩
    | PollFetch.http statusCode payload =>
      let errDetected : Bool :=
        (statusCode == 404) ||
          (match payload with
           | some p => p.status == "error"
           | none => false)
      if errDetected then
        ⟨handleQuickPredictionNotFound s, true, none, false⟩
      else
        let step :=
          match payload with
          | some p =>
            if p.status = "success" then handleQuickPredictionStatus s p.data
            else (s, false)
          | none => (s, false)
        let s1 := step.1
        if s1.quickPollingActive then
          ⟨{ s1 with quickPollingTimer := some s1.nextTimerId,
                     nextTimerId := s1.nextTimerId + 1 },
            true, some 3000, step.2⟩
        else
          ⟨s1, true, none, step.2⟩

/-- `SportteryManager.interruptCurrentTask` as a function of the confirmation
dialog and the interrupt-all round trip.  On success it stops both batch
pollers, hides the interrupt affordance, forgets the task id and restores both
batch buttons — and touches nothing else. -/
def interruptCurrentTask (s : MgrState) (confirmed : Bool) (resp : NetResponse) :
    MgrState :=
  if !confirmed then s
  else if resp.fetchThrew then s
  else
    match resp.payload with
    | none => s
    | some p =>
      if !resp.ok ∨ p.status ≠ some "success" then s
      else
        let s1 :=
          { s with statusMessage := jsOr p.message "所有任务已中断", statusKind := "warning" }
        let s2 := stopQuickPredictionPolling s1
        let s3 := stopDeepAnalysisPolling s2
        { s3 with
          interruptVisible := false
          currentTaskId := none
          quickButtonIdle := true
          deepButtonIdle := true }

/- ### loadMergedData and the processing-state sweep -/

/-- One step of the sweep in `loadMergedData`: clear the processing state of the code
state when its confirmation predicate holds against the fresh dataset. -/
def sweepStep (ms results : List MatchRec) (acc : MgrState) (code : String) : MgrState :=
  match lookupA acc.processingStates code with
  | none => acc
  | some ty =>
    if hasProcessingResult ms results code ty then setMatchProcessing acc code none
    else acc

/-- The sweep over `Object.keys(this._processingStates)` in `loadMergedData`. -/
def sweepProcessingStates (ms results : List MatchRec) (s : MgrState) : MgrState :=
  (s.processingStates.map Prod.fst).foldl (sweepStep ms results) s

/-- The result of `loadMergedData`: new orchestrator and store states. -/
structure LoadOutcome where
  mgr : MgrState
  store : StoreState
deriving DecidableEq, Repr

/-- `SportteryManager.loadMergedData` on the claim-relevant path: on fetch
success, split the merged dataset on the completion flag, push both partitions
into the store (which recomputes the groupings), then sweep the processing
states against the fresh dataset.  The date-selection and rendering tail is
pure UI and is not modelled; on fetch error nothing claim-relevant mutates. -/
def loadMergedData (s : MgrState) (st : StoreState) (fetched : DSResult) : LoadOutcome :=
  if fetched.status = "success" then
    let ms := fetched.data.filter (fun m => !m.is_completed)
    let results := fetched.data.filter (fun m => m.is_completed)
    let st1 := setState st ⟨some ms, some results, some "matches", none⟩
    let s1 := sweepProcessingStates st1.matchesL st1.results s
    ⟨s1, st1⟩
  else ⟨s, st⟩

/- ### Helper lemmas about the orchestrator operations -/

theorem lookupA_none_countKey {β : Type} (l : List (String × β)) (k : String)
    (h : lookupA l k = none) : countKey l k = 0 := by
  induction l with
  | nil => simp [countKey]
  | cons p rest ih =>
    obtain ⟨k2, v2⟩ := p
    by_cases h2 : k2 = k
    · simp [lookupA, h2] at h
    · simp only [lookupA, if_neg h2] at h
      simp [countKey, h2, ih h]

theorem countKey_setA_of_zero {β : Type} (l : List (String × β)) (k : String) (v : β)
    (h : countKey l k = 0) : countKey (setA l k v) k = 1 := by
  rw [setA_of_countKey_zero l k v h, countKey_append, h]
  simp [countKey]

theorem clearQPT_processingStates (s : MgrState) (code : String) :
    (clearQuickPredictionTimer s code).processingStates = s.processingStates := by
  unfold clearQuickPredictionTimer
  cases lookupA s.quickPredictionTimers code <;> rfl

theorem clearQPT_nextTimerId (s : MgrState) (code : String) :
    (clearQuickPredictionTimer s code).nextTimerId = s.nextTimerId := by
  unfold clearQuickPredictionTimer
  cases lookupA s.quickPredictionTimers code <;> rfl

theorem clearQPT_timers_lookup (s : MgrState) (code : String) :
    lookupA (clearQuickPredictionTimer s code).quickPredictionTimers code = none := by
  unfold clearQuickPredictionTimer
  cases h : lookupA s.quickPredictionTimers code with
  | none => simpa using h
  | some t => simpa using lookupA_eraseA_self s.quickPredictionTimers code

theorem clearQPT_countKey (s : MgrState) (code : String) :
    countKey (clearQuickPredictionTimer s code).quickPredictionTimers code = 0 := by
  unfold clearQuickPredictionTimer
  cases h : lookupA s.quickPredictionTimers code with
  | none => simpa using lookupA_none_countKey _ _ h
  | some t => simpa using countKey_eraseA s.quickPredictionTimers code

theorem clearQPT_cancels (s : MgrState) (code : String) (t : Nat)
    (h : lookupA s.quickPredictionTimers code = some t) :
    t ∈ (clearQuickPredictionTimer s code).cancelledTimers := by
  unfold clearQuickPredictionTimer
  rw [h]
  simp

theorem setMP_none_processing (s : MgrState) (code : String) :
    lookupA (setMatchProcessing s code none).processingStates code = none := by
  unfold setMatchProcessing
  rw [clearQPT_processingStates]
  exact lookupA_eraseA_self _ _

theorem setMP_none_timers (s : MgrState) (code : String) :
    lookupA (setMatchProcessing s code none).quickPredictionTimers code = none := by
  unfold setMatchProcessing
  exact clearQPT_timers_lookup _ _

theorem setMP_none_cancels (s : MgrState) (code : String) (t : Nat)
    (h : lookupA s.quickPredictionTimers code = some t) :
    t ∈ (setMatchProcessing s code none).cancelledTimers := by
  unfold setMatchProcessing
  exact clearQPT_cancels _ _ _ h

theorem setMP_none_processing_eq (s : MgrState) (code : String) :
    (setMatchProcessing s code none).processingStates = eraseA s.processingStates code := by
  unfold setMatchProcessing
  rw [clearQPT_processingStates]

theorem schedSetup_processingStates (s : MgrState) (code : String) :
    (scheduleProcessingRefreshSetup s code).processingStates = s.processingStates := by
  unfold scheduleProcessingRefreshSetup
  exact clearQPT_processingStates s code

/- ### C5 -/

/-- C5 counterexample: the claim says a record whose `group_date` is not a
parseable date string gets a null grouping key and lands in no group.  The
string "not-a-date!!" is not a parseable date, yet `extractDateKey` returns
the garbage key "-d-te" and the record is grouped under it. -/
theorem extractDateKey_malformed_not_null :
    isSpecParseableGroupDate "not-a-date!!" = false ∧
    extractDateKey ⟨"M1", some "not-a-date!!", true, none, none, none⟩ = some "-d-te" ∧
    lookupA
        (updateResultsDateGroups [⟨"M1", some "not-a-date!!", true, none, none, none⟩])
        "-d-te"
      = some [⟨"M1", some "not-a-date!!", true, none, none, none⟩] := by
  refine ⟨by decide, by decide, by decide⟩

/-- C5 (amended): `extractDateKey` returns null when `group_date` is absent,
blank (empty or whitespace-only), or shorter than 10 characters, and a record
with a null key appears in no group of either partition grouping; but for a
string of length at least 10 the extractor slices characters 5–6 and 8–9
without validating the string as a date. -/
theorem extractDateKey_invalid_excluded :
    ∀ (r : MatchRec),
      (r.group_date = none → extractDateKey r = none) ∧
      (∀ g, r.group_date = some g → trimNonEmpty g = false → extractDateKey r = none) ∧
      (∀ g, r.group_date = some g → g.length < 10 → extractDateKey r = none) ∧
      (extractDateKey r = none →
        ∀ (results : List MatchRec) (k : String) (grp : List MatchRec),
          lookupA (updateResultsDateGroups results) k = some grp → r ∉ grp) ∧
      (extractMatchDateKey r = none →
        ∀ (ms : List MatchRec) (k : String) (grp : List MatchRec),
          lookupA (updateMatchDateGroups ms) k = some grp → r ∉ grp) := by
  intro r
  refine ⟨?_, ?_, ?_, ?_, ?_⟩
  · intro h
    simp [extractDateKey, h]
  · intro g hg htrim
    simp [extractDateKey, hg, htrim]
  · intro g hg hlen
    by_cases hcond : g ≠ "" ∧ trimNonEmpty g = true
    · simp [extractDateKey, hg, hcond, Nat.not_le.mpr hlen]
    · simp [extractDateKey, hg, hcond]
  · intro hnone results k grp hlook hmem
    have hkey := updateResultsDateGroups_mem_key results k grp r hlook hmem
    rw [hnone] at hkey
    exact Option.noConfusion hkey
  · intro hnone ms k grp hlook hmem
    have hkey := updateMatchDateGroups_mem_key ms k grp r hlook hmem
    rw [hnone] at hkey
    exact Option.noConfusion hkey

/-- C5 witness: a record with no `group_date` at all gets a null key. -/
theorem extractDateKey_invalid_excluded_witness :
    extractDateKey ⟨"W1", none, false, none, none, none⟩ = none :=
  (extractDateKey_invalid_excluded ⟨"W1", none, false, none, none, none⟩).1 rfl

/- ### C6 -/

/-- C6: whenever `setState` carries a partition, the corresponding grouping is
rebuilt from scratch from only the records of that partition, and applying the same
update twice yields the same state (so recomputing the groupings from the same
dataset is idempotent). -/
theorem setState_recomputes_groupings :
    ∀ (st : StoreState) (u : StateUpdates),
      (∀ R, u.resultsU = some R →
        (setState st u).dateGroups = updateResultsDateGroups R) ∧
      (∀ M, u.matchesU = some M →
        (setState st u).matchDateGroups = updateMatchDateGroups M) ∧
      setState (setState st u) u = setState st u := by
  intro st u
  obtain ⟨mu, ru, cu, du⟩ := u
  refine ⟨?_, ?_, ?_⟩
  · intro R hR
    cases mu <;> simp_all [setState]
  · intro M hM
    cases ru <;> simp_all [setState]
  · cases mu <;> cases ru <;> cases cu <;> cases du <;> simp [setState]

/-- C6 witness: a concrete update carrying both partitions. -/
theorem setState_recomputes_groupings_witness :
    (setState ⟨[], [], [("x", [])], [("y", [])], "results", false, none⟩
        ⟨some [], some [⟨"M1", some "2025-11-04", true, none, none, none⟩], none, none⟩).dateGroups
      = updateResultsDateGroups [⟨"M1", some "2025-11-04", true, none, none, none⟩] :=
  (setState_recomputes_groupings
      ⟨[], [], [("x", [])], [("y", [])], "results", false, none⟩
      ⟨some [], some [⟨"M1", some "2025-11-04", true, none, none, none⟩], none, none⟩).1
    [⟨"M1", some "2025-11-04", true, none, none, none⟩] rfl

/- ### C8 -/

/-- C8 counterexample: the claim says every data-service method folds malformed
payloads into status success/error.  `triggerResultScraping` returns an
HTTP-ok payload verbatim: a server body with status "done" is handed back with
status neither success nor error. -/
theorem triggerResultScraping_not_normalized :
    (triggerResultScraping ⟨false, true, some ⟨some "done", none, none, none, none, none⟩⟩).status
        = some "done" ∧
    (triggerResultScraping ⟨false, true, some ⟨some "done", none, none, none, none, none⟩⟩).status
        ≠ some "success" ∧
    (triggerResultScraping ⟨false, true, some ⟨some "done", none, none, none, none, none⟩⟩).status
        ≠ some "error" := by
  refine ⟨by decide, by decide, by decide⟩

/-- C8 (amended): the fetch methods (`fetchAllMatches`, `fetchResults`)
normalize every outcome — network failure, non-ok HTTP, parse failure,
non-success payload — into a result whose status is exactly success or error,
and no exception escapes (the functions are total); `triggerResultScraping`
normalizes failures to status error but returns an HTTP-ok parseable payload
unchanged, with whatever status field the server sent. -/
theorem dataService_normalization :
    ∀ (resp : NetResponse),
      ((fetchAllMatches resp).status = "success" ∨ (fetchAllMatches resp).status = "error") ∧
      ((fetchResults resp).status = "success" ∨ (fetchResults resp).status = "error") ∧
      ((resp.fetchThrew = true ∨ resp.ok = false ∨ resp.payload = none) →
        (triggerResultScraping resp).status = some "error") ∧
      (∀ p, resp.fetchThrew = false → resp.ok = true → resp.payload = some p →
        triggerResultScraping resp = p) := by
  intro resp
  obtain ⟨ft, ok, pl⟩ := resp
  refine ⟨?_, ?_, ?_, ?_⟩
  · cases ft
    · cases ok
      · simp [fetchAllMatches]
      · rcases pl with _ | p
        · simp [fetchAllMatches]
        · by_cases hs : p.status = some "success" <;> simp [fetchAllMatches, hs]
    · simp [fetchAllMatches]
  · cases ft
    · cases ok
      · simp [fetchResults]
      · rcases pl with _ | p
        · simp [fetchResults]
        · by_cases hs : p.status = some "success" <;> simp [fetchResults, hs]
    · simp [fetchResults]
  · intro h
    cases ft <;> cases ok <;> rcases pl with _ | p <;>
      simp_all [triggerResultScraping]
  · intro p hft hok hpl
    subst hft; subst hok; subst hpl
    simp [triggerResultScraping]

/-- C8 witness: a network failure is normalized by every modelled method. -/
theorem dataService_normalization_witness :
    (triggerResultScraping ⟨true, false, none⟩).status = some "error" :=
  (dataService_normalization ⟨true, false, none⟩).2.2.1 (Or.inl rfl)

/- ### C7 -/

/-- C7: scheduling a refresh loop for a code first cancels the pending timer of
that code and leaves exactly one registered timer for it, and clearing the
processing state of a code removes the map entry and always cancels and removes any
pending timer for that code. -/
theorem timer_per_code_discipline :
    ∀ (s : MgrState) (code : String),
      countKey (scheduleProcessingRefreshSetup s code).quickPredictionTimers code = 1 ∧
      (∀ t, lookupA s.quickPredictionTimers code = some t →
        t ∈ (scheduleProcessingRefreshSetup s code).cancelledTimers) ∧
      lookupA (setMatchProcessing s code none).processingStates code = none ∧
      lookupA (setMatchProcessing s code none).quickPredictionTimers code = none ∧
      (∀ t, lookupA s.quickPredictionTimers code = some t →
        t ∈ (setMatchProcessing s code none).cancelledTimers) := by
  intro s code
  refine ⟨?_, ?_, setMP_none_processing s code, setMP_none_timers s code,
    setMP_none_cancels s code⟩
  · unfold scheduleProcessingRefreshSetup
    exact countKey_setA_of_zero _ _ _ (clearQPT_countKey s code)
  · intro t ht
    unfold scheduleProcessingRefreshSetup
    exact clearQPT_cancels s code t ht

/-- C7 witness: with a pending timer 7 for code "A001", scheduling cancels it
and clearing cancels it. -/
theorem timer_per_code_discipline_witness :
    countKey
        (scheduleProcessingRefreshSetup
          { mgr0 with quickPredictionTimers := [("A001", 7)] } "A001").quickPredictionTimers
        "A001" = 1 ∧
    (7 : Nat) ∈
      (setMatchProcessing { mgr0 with quickPredictionTimers := [("A001", 7)] }
        "A001" none).cancelledTimers :=
  ⟨(timer_per_code_discipline { mgr0 with quickPredictionTimers := [("A001", 7)] } "A001").1,
   (timer_per_code_discipline { mgr0 with quickPredictionTimers := [("A001", 7)] } "A001").2.2.2.2
     7 (by decide)⟩

/- ### C3 -/

theorem refreshLoop_never_found (code : String) (limit : Nat) (found : Nat → Bool)
    (hf : ∀ n, found n = false) :
    ∀ (fuel attempts : Nat) (s : MgrState), attempts + fuel = limit → fuel ≠ 0 →
      ∃ s2, processingRefreshLoopGo code limit found fuel attempts s =
        (setMatchProcessing s2 code none, limit) := by
  intro fuel
  induction fuel with
  | zero => intro attempts s _ hfz; exact absurd rfl hfz
  | succ f ih =>
    intro attempts s h _
    by_cases hl : limit ≤ attempts + 1
    · have heq : attempts + 1 = limit := by omega
      refine ⟨s, ?_⟩
      simp [processingRefreshLoopGo, hf (attempts + 1), heq]
    · have hf0 : f ≠ 0 := by omega
      have h2 : (attempts + 1) + f = limit := by omega
      obtain ⟨s2, hs2⟩ := ih (attempts + 1)
        { s with
          quickPredictionTimers := setA s.quickPredictionTimers code s.nextTimerId
          nextTimerId := s.nextTimerId + 1 } h2 hf0
      refine ⟨s2, ?_⟩
      simp only [processingRefreshLoopGo, hf (attempts + 1), Bool.false_eq_true,
        if_false, if_neg hl]
      exact hs2

/-- C3: when the confirmation predicate never becomes true, the self-healing
loop launched for a quick job (no explicit bounds, so the defaults apply) makes
exactly 5 attempts, and the loop launched for a deep job (explicit bounds 24
and 10000, as passed by `deepAnalysisSingleMatch`) makes exactly 24 attempts;
in both cases the processing state of the code ends absent and its timer entry is
removed, with no error raised (the run is total). -/
theorem selfHealing_attempt_bounds :
    ∀ (s : MgrState) (code : String) (found : Nat → Bool),
      (∀ n, found n = false) →
      ((runProcessingRefresh s code JobKind.quick none none found).2 = 5 ∧
       lookupA (runProcessingRefresh s code JobKind.quick none none found).1.processingStates
         code = none ∧
       lookupA (runProcessingRefresh s code JobKind.quick none none found).1.quickPredictionTimers
         code = none) ∧
      ((runProcessingRefresh s code JobKind.deep (some 24) (some 10000) found).2 = 24 ∧
       lookupA
         (runProcessingRefresh s code JobKind.deep (some 24) (some 10000) found).1.processingStates
         code = none ∧
       lookupA
         (runProcessingRefresh s code JobKind.deep (some 24)
           (some 10000) found).1.quickPredictionTimers code = none) := by
  intro s code found hf
  constructor
  · obtain ⟨s2, hs2⟩ := refreshLoop_never_found code 5 found hf 5 0
      (scheduleProcessingRefreshSetup s code) (by omega) (by omega)
    have hrun : runProcessingRefresh s code JobKind.quick none none found =
        (setMatchProcessing s2 code none, 5) := by
      unfold runProcessingRefresh
      simpa [refreshAttemptsLimit, refreshIntervalMs] using hs2
    rw [hrun]
    exact ⟨rfl, setMP_none_processing s2 code, setMP_none_timers s2 code⟩
  · obtain ⟨s2, hs2⟩ := refreshLoop_never_found code 24 found hf 24 0
      (scheduleProcessingRefreshSetup s code) (by omega) (by omega)
    have hrun : runProcessingRefresh s code JobKind.deep (some 24) (some 10000) found =
        (setMatchProcessing s2 code none, 24) := by
      unfold runProcessingRefresh
      simpa [refreshAttemptsLimit, refreshIntervalMs] using hs2
    rw [hrun]
    exact ⟨rfl, setMP_none_processing s2 code, setMP_none_timers s2 code⟩

/-- C3 witness: a concrete run whose predicate is constantly false. -/
theorem selfHealing_attempt_bounds_witness :
    (runProcessingRefresh mgr0 "A001" JobKind.quick none none (fun _ => false)).2 = 5 ∧
    (runProcessingRefresh mgr0 "A001" JobKind.deep (some 24) (some 10000)
      (fun _ => false)).2 = 24 :=
  ⟨((selfHealing_attempt_bounds mgr0 "A001" (fun _ => false) (fun _ => rfl)).1).1,
   ((selfHealing_attempt_bounds mgr0 "A001" (fun _ => false) (fun _ => rfl)).2).1⟩

/- ### C1 -/

/-- C1 counterexample: with a deep job already recorded as active for "A001"
and every remote eligibility check passing, a quick single-match launch is not
a no-op: it issues the job-start request and overwrites the entry with
`quick`. -/
theorem quickPredict_active_entry_not_noop :
    (quickPredictSingleMatch { mgr0 with processingStates := [("A001", JobKind.deep)] }
        "A001" ⟨false, "success", none, ⟨true, false, true, true, 0, 3, 0, 2⟩⟩
        ⟨false, "success", none⟩ false).launchRequested = true ∧
    lookupA
        (quickPredictSingleMatch { mgr0 with processingStates := [("A001", JobKind.deep)] }
          "A001" ⟨false, "success", none, ⟨true, false, true, true, 0, 3, 0, 2⟩⟩
          ⟨false, "success", none⟩ false).state.processingStates "A001"
      = some JobKind.quick := by
  refine ⟨by decide, by decide⟩

/-- C1 (amended): the single-match eligibility gate checks only the remote
prediction-status response (time window, existing deep analysis, concurrency)
and never consults the Per-Entity Processing State map; whenever those remote
checks pass and the job-start call succeeds, the launch issues the request and
records `quick` for the code — overwriting any existing entry rather than
absorbing the click.  At most one job kind is recorded per code only because
the map holds a single value per key. -/
theorem quickPredict_gate_skips_processing_map :
    ∀ (s : MgrState) (code : String) (stR : PredictionStatusResp) (launch : LaunchResp),
      stR.threw = false → stR.status = "success" →
      stR.data.is_within_window = true → stR.data.has_deep_analysis = false →
      stR.data.can_quick_predict = true → launch.threw = false →
      launch.status = "success" →
      (quickPredictSingleMatch s code stR launch false).launchRequested = true ∧
      lookupA (quickPredictSingleMatch s code stR launch false).state.processingStates code
        = some JobKind.quick := by
  intro s code stR launch h1 h2 h3 h4 h5 h6 h7
  have hout : quickPredictSingleMatch s code stR launch false =
      ⟨scheduleProcessingRefreshSetup (setMatchProcessing s code (some JobKind.quick)) code,
        true, true, true, none, none, none⟩ := by
    unfold quickPredictSingleMatch
    simp [h1, h2, h3, h4, h5, h6, h7]
  rw [hout]
  refine ⟨rfl, ?_⟩
  rw [schedSetup_processingStates]
  unfold setMatchProcessing
  exact lookupA_setA_self _ _ _

/-- C1 witness: concrete all-pass responses with an already-active deep entry. -/
theorem quickPredict_gate_skips_processing_map_witness :
    (quickPredictSingleMatch { mgr0 with processingStates := [("B002", JobKind.deep)] }
        "B002" ⟨false, "success", none, ⟨true, false, true, true, 1, 3, 0, 2⟩⟩
        ⟨false, "success", none⟩ false).launchRequested = true :=
  (quickPredict_gate_skips_processing_map
      { mgr0 with processingStates := [("B002", JobKind.deep)] } "B002"
      ⟨false, "success", none, ⟨true, false, true, true, 1, 3, 0, 2⟩⟩
      ⟨false, "success", none⟩ rfl rfl rfl rfl rfl rfl rfl).1

/- ### C2 -/

/-- C2 counterexample: a deep single-match launch whose job-start request
succeeds performs no immediate canonical-dataset refresh and unconditionally
schedules the self-healing loop (leaving the code marked `deep`), contrary to
the claimed common fast path for both kinds. -/
theorem deepAnalysis_no_fast_path :
    (deepAnalysisSingleMatch mgr0 "A001"
        ⟨false, "success", none, ⟨true, false, true, true, 0, 3, 0, 2⟩⟩
        ⟨false, "success", none⟩).immediateRefresh = false ∧
    (deepAnalysisSingleMatch mgr0 "A001"
        ⟨false, "success", none, ⟨true, false, true, true, 0, 3, 0, 2⟩⟩
        ⟨false, "success", none⟩).scheduledLoop = true ∧
    lookupA
        (deepAnalysisSingleMatch mgr0 "A001"
          ⟨false, "success", none, ⟨true, false, true, true, 0, 3, 0, 2⟩⟩
          ⟨false, "success", none⟩).state.processingStates "A001" = some JobKind.deep := by
  refine ⟨by decide, by decide, by decide⟩

/-- C2 (amended): only a successful quick launch refreshes the canonical
dataset immediately and, when the confirmation predicate already holds in the
refreshed dataset, clears the state of the code without scheduling the self-healing
loop (otherwise it schedules the loop).  A successful deep launch never
refreshes immediately: it schedules a one-shot 5000 ms refresh and always
enters the self-healing loop with bounds 24 and 10000 ms, keeping the code
marked `deep`. -/
theorem singleMatch_success_refresh_policy :
    ∀ (s : MgrState) (code : String) (stR : PredictionStatusResp) (launch : LaunchResp),
      stR.threw = false → stR.status = "success" →
      stR.data.is_within_window = true → stR.data.has_deep_analysis = false →
      launch.threw = false → launch.status = "success" →
      (stR.data.can_quick_predict = true →
        ((quickPredictSingleMatch s code stR launch true).immediateRefresh = true ∧
         (quickPredictSingleMatch s code stR launch true).scheduledLoop = false ∧
         lookupA (quickPredictSingleMatch s code stR launch true).state.processingStates code
           = none ∧
         (quickPredictSingleMatch s code stR launch false).immediateRefresh = true ∧
         (quickPredictSingleMatch s code stR launch false).scheduledLoop = true)) ∧
      (stR.data.can_deep_analysis = true →
        ((deepAnalysisSingleMatch s code stR launch).immediateRefresh = false ∧
         (deepAnalysisSingleMatch s code stR launch).scheduledLoop = true ∧
         (deepAnalysisSingleMatch s code stR launch).delayedRefreshMs = some 5000 ∧
         (deepAnalysisSingleMatch s code stR launch).loopMaxAttempts = some 24 ∧
         (deepAnalysisSingleMatch s code stR launch).loopIntervalMs = some 10000 ∧
         lookupA (deepAnalysisSingleMatch s code stR launch).state.processingStates code
           = some JobKind.deep)) := by
  intro s code stR launch h1 h2 h3 h4 h6 h7
  constructor
  · intro h5
    have hfast : quickPredictSingleMatch s code stR launch true =
        ⟨setMatchProcessing (setMatchProcessing s code (some JobKind.quick)) code none,
          true, true, false, none, none, none⟩ := by
      unfold quickPredictSingleMatch
      simp [h1, h2, h3, h4, h5, h6, h7]
    have hslow : quickPredictSingleMatch s code stR launch false =
        ⟨scheduleProcessingRefreshSetup (setMatchProcessing s code (some JobKind.quick)) code,
          true, true, true, none, none, none⟩ := by
      unfold quickPredictSingleMatch
      simp [h1, h2, h3, h4, h5, h6, h7]
    rw [hfast, hslow]
    exact ⟨rfl, rfl, setMP_none_processing _ code, rfl, rfl⟩
  · intro h5
    have hdeep : deepAnalysisSingleMatch s code stR launch =
        ⟨scheduleProcessingRefreshSetup (setMatchProcessing s code (some JobKind.deep)) code,
          true, false, true, some 24, some 10000, some 5000⟩ := by
      unfold deepAnalysisSingleMatch
      simp [h1, h2, h3, h4, h5, h6, h7]
    rw [hdeep]
    refine ⟨rfl, rfl, rfl, rfl, rfl, ?_⟩
    rw [schedSetup_processingStates]
    unfold setMatchProcessing
    exact lookupA_setA_self _ _ _

/-- C2 witness: concrete all-pass responses for both kinds. -/
theorem singleMatch_success_refresh_policy_witness :
    (quickPredictSingleMatch mgr0 "A001"
        ⟨false, "success", none, ⟨true, false, true, true, 0, 3, 0, 2⟩⟩
        ⟨false, "success", none⟩ true).scheduledLoop = false ∧
    (deepAnalysisSingleMatch mgr0 "A001"
        ⟨false, "success", none, ⟨true, false, true, true, 0, 3, 0, 2⟩⟩
        ⟨false, "success", none⟩).scheduledLoop = true :=
  ⟨((singleMatch_success_refresh_policy mgr0 "A001"
        ⟨false, "success", none, ⟨true, false, true, true, 0, 3, 0, 2⟩⟩
        ⟨false, "success", none⟩ rfl rfl rfl rfl rfl rfl).1 rfl).2.1,
   ((singleMatch_success_refresh_policy mgr0 "A001"
        ⟨false, "success", none, ⟨true, false, true, true, 0, 3, 0, 2⟩⟩
        ⟨false, "success", none⟩ rfl rfl rfl rfl rfl rfl).2 rfl).2.1⟩

/- ### C4 -/

/-- C4 counterexample: a successful interrupt-all stops both batch pollers but
leaves the per-entity processing entry for "A001" and its pending timer in
place, contrary to the claim that every entry existing at call time is
cleared. -/
theorem interrupt_keeps_processing_entries :
    (interruptCurrentTask
        { mgr0 with
          processingStates := [("A001", JobKind.quick)]
          quickPredictionTimers := [("A001", 7)]
          quickPollingActive := true
          deepPollingActive := true
          quickPollingTimer := some 1
          deepPollingTimer := some 2 }
        true ⟨false, true, some ⟨some "success", none, none, none, none, none⟩⟩).quickPollingActive
      = false ∧
    (interruptCurrentTask
        { mgr0 with
          processingStates := [("A001", JobKind.quick)]
          quickPredictionTimers := [("A001", 7)]
          quickPollingActive := true
          deepPollingActive := true
          quickPollingTimer := some 1
          deepPollingTimer := some 2 }
        true ⟨false, true, some ⟨some "success", none, none, none, none, none⟩⟩).deepPollingActive
      = false ∧
    lookupA
        (interruptCurrentTask
          { mgr0 with
            processingStates := [("A001", JobKind.quick)]
            quickPredictionTimers := [("A001", 7)]
            quickPollingActive := true
            deepPollingActive := true
            quickPollingTimer := some 1
            deepPollingTimer := some 2 }
          true ⟨false, true, some ⟨some "success", none, none, none, none, none⟩⟩).processingStates
        "A001" = some JobKind.quick ∧
    lookupA
        (interruptCurrentTask
          { mgr0 with
            processingStates := [("A001", JobKind.quick)]
            quickPredictionTimers := [("A001", 7)]
            quickPollingActive := true
            deepPollingActive := true
            quickPollingTimer := some 1
            deepPollingTimer := some 2 }
          true ⟨false, true, some ⟨some "success", none, none, none, none, none⟩⟩).quickPredictionTimers
        "A001" = some 7 := by
  refine ⟨by decide, by decide, by decide, by decide⟩

/-- C4 (amended): when the confirmed interrupt-all request succeeds, both
batch pollers stop (flags lowered, poll timers cancelled), the interrupt
affordance hides, the remembered task id resets and both batch trigger
controls return to idle; the Per-Entity Processing State map and the per-code
self-healing timers are left untouched. -/
theorem interrupt_success_stops_pollers :
    ∀ (s : MgrState) (p : RawPayload),
      p.status = some "success" →
      ((interruptCurrentTask s true ⟨false, true, some p⟩).quickPollingActive = false ∧
       (interruptCurrentTask s true ⟨false, true, some p⟩).deepPollingActive = false ∧
       (interruptCurrentTask s true ⟨false, true, some p⟩).quickPollingTimer = none ∧
       (interruptCurrentTask s true ⟨false, true, some p⟩).deepPollingTimer = none ∧
       (interruptCurrentTask s true ⟨false, true, some p⟩).currentTaskId = none ∧
       (interruptCurrentTask s true ⟨false, true, some p⟩).interruptVisible = false ∧
       (interruptCurrentTask s true ⟨false, true, some p⟩).quickButtonIdle = true ∧
       (interruptCurrentTask s true ⟨false, true, some p⟩).deepButtonIdle = true ∧
       (interruptCurrentTask s true ⟨false, true, some p⟩).processingStates
         = s.processingStates ∧
       (interruptCurrentTask s true ⟨false, true, some p⟩).quickPredictionTimers
         = s.quickPredictionTimers) := by
  intro s p hp
  unfold interruptCurrentTask
  simp only [hp]
  unfold stopQuickPredictionPolling stopDeepAnalysisPolling
  cases s.quickPollingTimer <;> cases s.deepPollingTimer <;> simp

/-- C4 witness: a concrete active state with a successful interrupt response. -/
theorem interrupt_success_stops_pollers_witness :
    (interruptCurrentTask
        { mgr0 with quickPollingActive := true, quickPollingTimer := some 3 }
        true ⟨false, true, some ⟨some "success", none, none, none, none, some "done"⟩⟩).quickPollingActive
      = false :=
  (interrupt_success_stops_pollers
      { mgr0 with quickPollingActive := true, quickPollingTimer := some 3 }
      ⟨some "success", none, none, none, none, some "done"⟩ rfl).1

/- ### C9 -/

theorem stopQPP_active (s : MgrState) :
    (stopQuickPredictionPolling s).quickPollingActive = false := by
  unfold stopQuickPredictionPolling
  cases s.quickPollingTimer <;> rfl

theorem stopQPP_timer (s : MgrState) :
    (stopQuickPredictionPolling s).quickPollingTimer = none := by
  unfold stopQuickPredictionPolling
  cases s.quickPollingTimer <;> rfl

theorem quickPollStep_inactive (s : MgrState) (h : s.quickPollingActive = false)
    (resp : PollFetch) : quickPollStep s resp = ⟨s, false, none, false⟩ := by
  unfold quickPollStep
  simp [h]

theorem quickPollStep_notfound (s : MgrState) (hA : s.quickPollingActive = true)
    (c : Nat) (payload : Option PollPayload)
    (h : c = 404 ∨ ∃ p, payload = some p ∧ p.status = "error") :
    quickPollStep s (PollFetch.http c payload) =
      ⟨handleQuickPredictionNotFound s, true, none, false⟩ := by
  unfold quickPollStep
  rcases h with hc | ⟨p, hp, hps⟩
  · subst hc
    simp [hA]
  · subst hp
    simp [hA, hps]

theorem quickPollStep_pending_running (s : MgrState) (hA : s.quickPollingActive = true)
    (c : Nat) (p : PollPayload) (t : TaskData) (hc : c ≠ 404)
    (hps : p.status = "success") (hpd : p.data = some t)
    (ht : t.status = "pending" ∨ t.status = "running") :
    quickPollStep s (PollFetch.http c (some p)) =
      ⟨{ s with
          statusMessage := quickProgressMessage t
          statusKind := "info"
          quickPollingTimer := some s.nextTimerId
          nextTimerId := s.nextTimerId + 1 },
        true, some 3000, false⟩ := by
  unfold quickPollStep
  have hc4 : (c == 404) = false := by simpa using hc
  have herr : (p.status == "error") = false := by simp [hps]
  have hhandle : handleQuickPredictionStatus s (some t) =
      ({ s with statusMessage := quickProgressMessage t, statusKind := "info" }, false) := by
    show (if t.status = "pending" ∨ t.status = "running" then _ else _) = _
    rw [if_pos ht]
  simp [hA, hc4, herr, hps, hpd, hhandle]

theorem quickPollStep_parse_failure (s : MgrState) (hA : s.quickPollingActive = true)
    (c : Nat) (hc : c ≠ 404) :
    quickPollStep s (PollFetch.http c none) =
      ⟨{ s with quickPollingTimer := some s.nextTimerId, nextTimerId := s.nextTimerId + 1 },
        true, some 3000, false⟩ := by
  unfold quickPollStep
  have hc4 : (c == 404) = false := by simpa using hc
  simp [hA, hc4]

/-- C9: while the batch quick-prediction poller is active, a pending/running
status response updates the progress readout and reschedules the next poll
3000 ms later; an HTTP 404 or an explicit error status stops polling, cancels
the poll timer, restores the idle affordance, forgets the task id, and any
later poll invocation issues no request and schedules nothing; a transient
fetch failure, or a parse failure on a non-404 response, keeps polling (next
poll in 3000 ms) without touching the status line, the task id or the
processing map. -/
theorem quickPolling_classification :
    ∀ (s : MgrState), s.quickPollingActive = true →
      (∀ (c : Nat) (p : PollPayload) (t : TaskData),
        c ≠ 404 → p.status = "success" → p.data = some t →
        (t.status = "pending" ∨ t.status = "running") →
        (quickPollStep s (PollFetch.http c (some p))).nextPollDelayMs = some 3000 ∧
        (quickPollStep s (PollFetch.http c (some p))).state.quickPollingActive = true ∧
        (quickPollStep s (PollFetch.http c (some p))).state.statusMessage
          = quickProgressMessage t) ∧
      (∀ (c : Nat) (payload : Option PollPayload),
        (c = 404 ∨ ∃ p, payload = some p ∧ p.status = "error") →
        (quickPollStep s (PollFetch.http c payload)).state.quickPollingActive = false ∧
        (quickPollStep s (PollFetch.http c payload)).state.quickPollingTimer = none ∧
        (quickPollStep s (PollFetch.http c payload)).nextPollDelayMs = none ∧
        (quickPollStep s (PollFetch.http c payload)).state.quickButtonIdle = true ∧
        (quickPollStep s (PollFetch.http c payload)).state.currentTaskId = none ∧
        ∀ (resp2 : PollFetch),
          (quickPollStep (quickPollStep s (PollFetch.http c payload)).state resp2).issuedRequest
            = false ∧
          (quickPollStep (quickPollStep s (PollFetch.http c payload)).state resp2).nextPollDelayMs
            = none) ∧
      ((quickPollStep s PollFetch.threw).nextPollDelayMs = some 3000 ∧
       (quickPollStep s PollFetch.threw).state.quickPollingActive = true ∧
       (quickPollStep s PollFetch.threw).state.statusMessage = s.statusMessage ∧
       (quickPollStep s PollFetch.threw).state.currentTaskId = s.currentTaskId ∧
       (quickPollStep s PollFetch.threw).state.processingStates = s.processingStates) ∧
      (∀ (c : Nat), c ≠ 404 →
        (quickPollStep s (PollFetch.http c none)).nextPollDelayMs = some 3000 ∧
        (quickPollStep s (PollFetch.http c none)).state.quickPollingActive = true ∧
        (quickPollStep s (PollFetch.http c none)).state.statusMessage = s.statusMessage ∧
        (quickPollStep s (PollFetch.http c none)).state.currentTaskId = s.currentTaskId ∧
        (quickPollStep s (PollFetch.http c none)).state.processingStates
          = s.processingStates) := by
  intro s hA
  refine ⟨?_, ?_, ?_, ?_⟩
  · intro c p t hc hps hpd ht
    rw [quickPollStep_pending_running s hA c p t hc hps hpd ht]
    exact ⟨rfl, hA, rfl⟩
  · intro c payload h
    rw [quickPollStep_notfound s hA c payload h]
    have hinact : (handleQuickPredictionNotFound s).quickPollingActive = false := by
      unfold handleQuickPredictionNotFound
      simp [stopQPP_active]
    have htim : (handleQuickPredictionNotFound s).quickPollingTimer = none := by
      unfold handleQuickPredictionNotFound
      simp [stopQPP_timer]
    refine ⟨hinact, htim, rfl, rfl, rfl, ?_⟩
    intro resp2
    rw [quickPollStep_inactive _ hinact resp2]
    exact ⟨rfl, rfl⟩
  · have hthrew : quickPollStep s PollFetch.threw =
        ⟨{ s with quickPollingTimer := some s.nextTimerId, nextTimerId := s.nextTimerId + 1 },
          true, some 3000, false⟩ := by
      unfold quickPollStep
      simp [hA]
    rw [hthrew]
    exact ⟨rfl, hA, rfl, rfl, rfl⟩
  · intro c hc
    rw [quickPollStep_parse_failure s hA c hc]
    exact ⟨rfl, hA, rfl, rfl, rfl⟩

/-- C9 witness: a 404 poll on an active poller stops it, and a thrown fetch
keeps it polling. -/
theorem quickPolling_classification_witness :
    (quickPollStep { mgr0 with quickPollingActive := true }
        (PollFetch.http 404 none)).state.quickPollingActive = false ∧
    (quickPollStep { mgr0 with quickPollingActive := true }
        PollFetch.threw).nextPollDelayMs = some 3000 :=
  ⟨((quickPolling_classification { mgr0 with quickPollingActive := true } rfl).2.1
      404 none (Or.inl rfl)).1,
   ((quickPolling_classification { mgr0 with quickPollingActive := true } rfl).2.2.1).1⟩

/- ### C10 -/

theorem sweepStep_eq_none (ms results : List MatchRec) (acc : MgrState) (c : String)
    (h : lookupA acc.processingStates c = none) : sweepStep ms results acc c = acc := by
  unfold sweepStep
  rw [h]

theorem sweepStep_eq_some (ms results : List MatchRec) (acc : MgrState) (c : String)
    (ty0 : JobKind) (h : lookupA acc.processingStates c = some ty0) :
    sweepStep ms results acc c =
      if hasProcessingResult ms results c ty0 then setMatchProcessing acc c none
      else acc := by
  unfold sweepStep
  rw [h]

theorem sweep_clears_confirmed (ms results : List MatchRec) :
    ∀ (l : List String) (acc : MgrState),
      (∀ code ty, lookupA acc.processingStates code = some ty →
        hasProcessingResult ms results code ty = true → code ∈ l) →
      ∀ code ty,
        lookupA (l.foldl (sweepStep ms results) acc).processingStates code = some ty →
        hasProcessingResult ms results code ty = false := by
  intro l
  induction l with
  | nil =>
    intro acc hinv code ty hlook
    cases hres : hasProcessingResult ms results code ty with
    | false => rfl
    | true => exact absurd (hinv code ty (by simpa using hlook) hres) (List.not_mem_nil code)
  | cons c l2 ih =>
    intro acc hinv code ty hlook
    rw [List.foldl_cons] at hlook
    refine ih (sweepStep ms results acc c) ?_ code ty hlook
    intro code2 ty2 hl2 hres2
    cases h0 : lookupA acc.processingStates c with
    | none =>
      rw [sweepStep_eq_none ms results acc c h0] at hl2
      rcases eq_or_ne code2 c with hec | hec
      · subst hec
        rw [h0] at hl2
        exact Option.noConfusion hl2
      · rcases List.mem_cons.mp (hinv code2 ty2 hl2 hres2) with hmem | hmem
        · exact absurd hmem hec
        · exact hmem
    | some ty0 =>
      rw [sweepStep_eq_some ms results acc c ty0 h0] at hl2
      by_cases hres0 : hasProcessingResult ms results c ty0 = true
      · rw [if_pos hres0, setMP_none_processing_eq] at hl2
        rcases eq_or_ne code2 c with hec | hec
        · subst hec
          rw [lookupA_eraseA_self] at hl2
          exact Option.noConfusion hl2
        · rw [lookupA_eraseA_ne _ _ _ hec] at hl2
          rcases List.mem_cons.mp (hinv code2 ty2 hl2 hres2) with hmem | hmem
          · exact absurd hmem hec
          · exact hmem
      · rw [if_neg hres0] at hl2
        rcases eq_or_ne code2 c with hec | hec
        · subst hec
          rw [h0] at hl2
          have hty : ty0 = ty2 := Option.some.inj hl2
          rw [hty] at hres0
          exact absurd hres2 hres0
        · rcases List.mem_cons.mp (hinv code2 ty2 hl2 hres2) with hmem | hmem
          · exact absurd hmem hec
          · exact hmem

/-- C10: after any successful merged-data load, no match code remains marked
processing once its confirmation predicate holds against the freshly loaded
dataset: the sweep in `loadMergedData` clears every such entry, whether or not
the own self-healing timer of that code has fired. -/
theorem loadMergedData_sweeps_confirmed :
    ∀ (s : MgrState) (st : StoreState) (fetched : DSResult) (code : String) (ty : JobKind),
      fetched.status = "success" →
      lookupA (loadMergedData s st fetched).mgr.processingStates code = some ty →
      hasProcessingResult (loadMergedData s st fetched).store.matchesL
        (loadMergedData s st fetched).store.results code ty = false := by
  intro s st fetched code ty hst hlook
  unfold loadMergedData at hlook ⊢
  rw [if_pos hst] at hlook ⊢
  refine sweep_clears_confirmed _ _ _ s ?_ code ty hlook
  intro code2 ty2 hl2 _
  exact lookupA_mem _ _ _ hl2

/-- C10 witness: a load whose dataset does not yet confirm the pending quick
job leaves the entry, and the theorem then reports the predicate false. -/
theorem loadMergedData_sweeps_confirmed_witness :
    hasProcessingResult
        (loadMergedData { mgr0 with processingStates := [("B002", JobKind.quick)] }
          ⟨[], [], [], [], "matches", false, none⟩
          ⟨"success", [⟨"B002", some "2025-11-04", false, none, none, none⟩], 1, 1, 0,
            none⟩).store.matchesL
        (loadMergedData { mgr0 with processingStates := [("B002", JobKind.quick)] }
          ⟨[], [], [], [], "matches", false, none⟩
          ⟨"success", [⟨"B002", some "2025-11-04", false, none, none, none⟩], 1, 1, 0,
            none⟩).store.results
        "B002" JobKind.quick = false :=
  loadMergedData_sweeps_confirmed
    { mgr0 with processingStates := [("B002", JobKind.quick)] }
    ⟨[], [], [], [], "matches", false, none⟩
    ⟨"success", [⟨"B002", some "2025-11-04", false, none, none, none⟩], 1, 1, 0, none⟩
    "B002" JobKind.quick rfl (by decide)
